import Mathlib

set_option maxRecDepth 10000

/-
Verification of the waveform/diagram generator scripts of test-goertzel-vhdl.

Shallow embedding of:
  - scripts/generate_waveforms.py  (scenario model: per-cycle signal arrays,
    composed into multi-panel diagrams, exported to raster files)
  - scripts/generate_diagram.py    (vector-then-raster export path and its CLI)

Numpy arrays of per-cycle values are modelled as `List ℤ` (the scripts only
ever store integer constants in them), except the analog sine input which is
modelled as `List ℝ`.  Numpy slice assignment `xs[lo:hi] = v` is modelled by
`setSlice`.
-/

namespace TestGoertzel

/-- Numpy slice assignment `xs[lo:hi] = v`: every index `i` with
`lo ≤ i < hi` is overwritten with `v`, the rest is unchanged. -/
def setSlice (xs : List ℤ) (lo hi : ℕ) (v : ℤ) : List ℤ :=
  xs.mapIdx (fun i x => if lo ≤ i ∧ i < hi then v else x)

/-- generate_waveforms.py lines 68-70:
`data_valid = np.zeros(N * 2); data_valid[1::2] = 1; data_valid = data_valid[:N]` —
a zero array of length 2N whose odd indices are set to 1, truncated to length N. -/
def data_valid (N : ℕ) : List ℤ :=
  (((List.replicate (N * 2) (0 : ℤ)).mapIdx
    (fun i x => if i % 2 = 1 then 1 else x)).take N)

/-- generate_waveforms.py lines 73-77: FSM timeline over N+5 cycles.
`state = np.zeros(N + 5); state[0:2] = 0; state[2:N+2] = 1;
state[N+2:N+3] = 2; state[N+3:] = 0`. -/
def state (N : ℕ) : List ℤ :=
  setSlice (setSlice (setSlice (setSlice (List.replicate (N + 5) (0 : ℤ))
    0 2 0) 2 (N + 2) 1) (N + 2) (N + 3) 2) (N + 3) (N + 5) 0

/-- generate_waveforms.py lines 80-81: `busy = np.zeros(N + 5); busy[2:N+3] = 1`. -/
def busy (N : ℕ) : List ℤ :=
  setSlice (List.replicate (N + 5) (0 : ℤ)) 2 (N + 3) 1

/-- generate_waveforms.py lines 84-85:
`data_valid_out = np.zeros(N + 5); data_valid_out[N+2] = 1`. -/
def data_valid_out (N : ℕ) : List ℤ :=
  (List.replicate (N + 5) (0 : ℤ)).set (N + 2) 1

/-- generate_waveforms.py lines 88-89 (Test 1, target frequency k=10):
`magnitude_out = np.zeros(N + 5); magnitude_out[N+2:] = 229712`. -/
def magnitude_out (N : ℕ) : List ℤ :=
  setSlice (List.replicate (N + 5) (0 : ℤ)) (N + 2) (N + 5) 229712

/-- generate_waveforms.py lines 114-115 (Test 2, off-target frequency k=5):
`magnitude_out = np.zeros(N + 5); magnitude_out[N+2:] = 0`. -/
def magnitude_out_off_target (N : ℕ) : List ℤ :=
  setSlice (List.replicate (N + 5) (0 : ℤ)) (N + 2) (N + 5) 0

/-- generate_waveforms.py lines 139-140 (Test 3, DC signal):
`magnitude_out = np.zeros(N + 5); magnitude_out[N+2:] = 0`. -/
def magnitude_out_dc (N : ℕ) : List ℤ :=
  setSlice (List.replicate (N + 5) (0 : ℤ)) (N + 2) (N + 5) 0

/-- generate_waveforms.py lines 22, 64-65 (also 110-111, 161-162):
`t_samples = np.arange(N); sine_wave = 1000 * np.sin(2 * np.pi * freq_bin * t_samples / N)`,
modelled with exact real arithmetic. -/
noncomputable def sine_wave (freq_bin N : ℕ) : List ℝ :=
  (List.range N).map
    (fun n : ℕ => 1000 * Real.sin (2 * Real.pi * (freq_bin : ℝ) * (n : ℝ) / (N : ℝ)))

/-- generate_waveforms.py line 136: `dc_signal = np.ones(N) * 500`. -/
def dc_signal (N : ℕ) : List ℤ :=
  (List.replicate N (1 : ℤ)).map (fun x => x * 500)

/-- The ordered value sequences composed into the Test 1 (target-frequency)
6-panel diagram, generate_waveforms.py lines 93-98: data_valid_in, analog
data_in, FSM state, busy, data_valid_out, magnitude_out.  Integer-valued
signals are cast into ℝ so that all panels live in one list. -/
noncomputable def target_diagram_values : List (List ℝ) :=
  [(data_valid 100).map (fun x : ℤ => (x : ℝ)),
   sine_wave 10 100,
   (state 100).map (fun x : ℤ => (x : ℝ)),
   (busy 100).map (fun x : ℤ => (x : ℝ)),
   (data_valid_out 100).map (fun x : ℤ => (x : ℝ)),
   (magnitude_out 100).map (fun x : ℤ => (x : ℝ))]

/-- The value sequences of the Test 2 (off-target) 6-panel diagram,
generate_waveforms.py lines 119-124. -/
noncomputable def off_target_diagram_values : List (List ℝ) :=
  [(data_valid 100).map (fun x : ℤ => (x : ℝ)),
   sine_wave 5 100,
   (state 100).map (fun x : ℤ => (x : ℝ)),
   (busy 100).map (fun x : ℤ => (x : ℝ)),
   (data_valid_out 100).map (fun x : ℤ => (x : ℝ)),
   (magnitude_out_off_target 100).map (fun x : ℤ => (x : ℝ))]

/-- The value sequences of the Test 3 (DC) 6-panel diagram,
generate_waveforms.py lines 144-149. -/
noncomputable def dc_diagram_values : List (List ℝ) :=
  [(data_valid 100).map (fun x : ℤ => (x : ℝ)),
   (dc_signal 100).map (fun x : ℤ => (x : ℝ)),
   (state 100).map (fun x : ℤ => (x : ℝ)),
   (busy 100).map (fun x : ℤ => (x : ℝ)),
   (data_valid_out 100).map (fun x : ℤ => (x : ℝ)),
   (magnitude_out_dc 100).map (fun x : ℤ => (x : ℝ))]

/-- The value sequences of the 4-panel overview diagram,
generate_waveforms.py lines 166-169. -/
noncomputable def overview_diagram_values : List (List ℝ) :=
  [(data_valid 100).map (fun x : ℤ => (x : ℝ)),
   (state 100).map (fun x : ℤ => (x : ℝ)),
   (busy 100).map (fun x : ℤ => (x : ℝ)),
   (data_valid_out 100).map (fun x : ℤ => (x : ℝ))]

end TestGoertzel

namespace TestGoertzel

/-- Outcome of running the `__main__` block of generate_waveforms.py.
`exit_code` is the process exit status, `hint_printed` records whether the
remediation message of lines 188-189 (naming the missing packages and the
pip3 install command) was printed, `work_done` whether
`generate_test_waveforms()` ran. -/
structure StartupResult where
  exit_code : ℕ
  hint_printed : Bool
  work_done : Bool
deriving DecidableEq

/-- Embeds the startup of scripts/generate_waveforms.py.  The module-level
`import numpy` / `import matplotlib.pyplot` at lines 7-9 execute before the
`__main__` try/except of lines 182-190.  When the numeric/plotting packages
are unavailable those module-level imports raise an uncaught ImportError: the
interpreter exits with status 1 printing only a traceback, and the except
branch of lines 187-190 (which would print the remediation hint) never runs.
When they are available, the try body runs `generate_test_waveforms()`. -/
def waveforms_startup (deps_available : Bool) : StartupResult :=
  if deps_available then ⟨0, false, true⟩ else ⟨1, false, false⟩

/-- The three dispatch outcomes of the `__main__` block of
generate_diagram.py, lines 75-94. -/
inductive CliMode where
| batch
| singleFile
| usage
deriving DecidableEq

/-- generate_diagram.py lines 76-94: dispatch on `len(sys.argv)` (the script
name plus the user-supplied arguments).  `len(sys.argv) == 1` selects batch
mode, `len(sys.argv) >= 3` selects single-file mode (arguments beyond the
third are ignored), anything else prints usage and exits 1. -/
def cli_dispatch (argv_len : ℕ) : CliMode :=
  if argv_len = 1 then CliMode.batch
  else if 3 ≤ argv_len then CliMode.singleFile
  else CliMode.usage

/-- Outcome of one `generate_diagram` call (generate_diagram.py lines 21-48)
on an existing input: whether the SVG and the PNG were written, whether the
PNG-failure warning of lines 47-48 was printed, and whether an exception
escaped the call (aborting the caller's loop). -/
structure DiagramExport where
  svg_written : Bool
  png_written : Bool
  warning_printed : Bool
  error_raised : Bool
deriving DecidableEq

/-- generate_diagram.py lines 21-48: the SVG is always saved (line 32); when a
PNG path was supplied, rasterization is attempted inside try/except — on
failure a warning is printed and the function returns normally, keeping the
SVG.  `raster_ok` abstracts whether `svg2png` succeeds. -/
def generate_diagram (png_requested : Bool) (raster_ok : Bool) : DiagramExport :=
  ⟨true, png_requested && raster_ok, png_requested && !raster_ok, false⟩

/-- generate_diagram.py lines 64-70: the batch loop calls `generate_diagram`
once per discovered file, always supplying a PNG output path.  Each file is
abstracted to the success flag of its rasterization step. -/
def generate_all_diagrams (files : List Bool) : List DiagramExport :=
  files.map (fun raster_ok => generate_diagram true raster_ok)

/-- Outcome of single-file mode of generate_diagram.py (lines 79-89):
the exit status when the script exits early (`none` when it proceeds),
the error message printed, and which output files were written. -/
structure SingleFileRun where
  exit_code : Option ℕ
  error_msg : Option String
  svg_written : Bool
  png_written : Bool

/-- generate_diagram.py lines 79-89: single-file mode checks
`Path(json_file).exists()` first; when the input is missing it prints
`ERROR: Input file not found: <path>` and exits 1 before calling
`generate_diagram`, so no output file is written.  Otherwise it runs
`generate_diagram` with the requested outputs. -/
def run_single_file (input_path : String) (input_exists : Bool)
    (png_requested : Bool) (raster_ok : Bool) : SingleFileRun :=
  if input_exists then
    ⟨none, none, (generate_diagram png_requested raster_ok).svg_written,
      (generate_diagram png_requested raster_ok).png_written⟩
  else
    ⟨some 1, some ("ERROR: Input file not found: " ++ input_path), false, false⟩

end TestGoertzel

namespace TestGoertzel

/-- C1: for the target-bin scenario (N=100, k=10) the magnitude signal has
length 105, is 0 on cycles [0, 102) and is the constant 229712 on
cycles [102, 105). -/
theorem c1_target_magnitude :
    (magnitude_out 100).length = 105 ∧
    ∀ i : Fin 105, (magnitude_out 100).getD i (-1) =
      if (i : ℕ) < 102 then 0 else 229712 := by
  decide

/-- C4: the input-valid signal has length N = 100 and its value at index n is
0 for even n and 1 for odd n; it is built without reference to the target
bin k (the definition `data_valid` takes no k parameter). -/
theorem c4_data_valid_alternates :
    (data_valid 100).length = 100 ∧
    ∀ n : Fin 100, (data_valid 100).getD n (-1) =
      if (n : ℕ) % 2 = 0 then 0 else 1 := by
  decide

/-- C5: for the off-target-bin scenario (k=5) and the DC scenario the
magnitude signal has length 105 and is 0 at every cycle. -/
theorem c5_zero_magnitudes :
    (magnitude_out_off_target 100).length = 105 ∧
    (magnitude_out_dc 100).length = 105 ∧
    (∀ i : Fin 105, (magnitude_out_off_target 100).getD i (-1) = 0) ∧
    (∀ i : Fin 105, (magnitude_out_dc 100).getD i (-1) = 0) := by
  decide

/-- C3: the busy, output-valid and state arrays (computed once at N=100 and
reused by every scenario's diagram) all have length 105; busy is 1 exactly on
[2, 103); output-valid is 1 only at cycle 102; the state is 0 (IDLE) on
[0,2) and [103,105), 1 (PROCESSING) on [2,102) and 2 (CALC) on [102,103). -/
theorem c3_control_signals :
    (busy 100).length = 105 ∧
    (data_valid_out 100).length = 105 ∧
    (state 100).length = 105 ∧
    (∀ i : Fin 105, (busy 100).getD i (-1) =
      if 2 ≤ (i : ℕ) ∧ (i : ℕ) < 103 then 1 else 0) ∧
    (∀ i : Fin 105, (data_valid_out 100).getD i (-1) =
      if (i : ℕ) = 102 then 1 else 0) ∧
    (∀ i : Fin 105, (state 100).getD i (-1) =
      if (i : ℕ) < 2 then 0
      else if (i : ℕ) < 102 then 1
      else if (i : ℕ) < 103 then 2 else 0) := by
  decide

/-- C2 counterexample: the target-frequency diagram composes both the
input-valid sequence and the state sequence (panels 1 and 3 of
`target_diagram_values`), yet their lengths differ (100 versus 105), so the
signals of one diagram do not all share one length. -/
theorem c2_lengths_counterexample :
    ((data_valid 100).map (fun x : ℤ => (x : ℝ))) ∈ target_diagram_values ∧
    ((state 100).map (fun x : ℤ => (x : ℝ))) ∈ target_diagram_values ∧
    (data_valid 100).length = 100 ∧
    (state 100).length = 105 ∧
    (data_valid 100).length ≠ (state 100).length := by
  refine ⟨?_, ?_, ?_, ?_, ?_⟩
  · simp [target_diagram_values]
  · simp [target_diagram_values]
  · decide
  · decide
  · decide

/-- C2 amended: in each of the four composed diagrams the input signals
(input-valid, analog input) have length N = 100 while the state, busy,
output-valid and magnitude sequences have length N + 5 = 105; the panel
sequences of one diagram therefore come in two lengths, not one. -/
theorem c2_diagram_lengths :
    target_diagram_values.map List.length = [100, 100, 105, 105, 105, 105] ∧
    off_target_diagram_values.map List.length = [100, 100, 105, 105, 105, 105] ∧
    dc_diagram_values.map List.length = [100, 100, 105, 105, 105, 105] ∧
    overview_diagram_values.map List.length = [100, 105, 105, 105] := by
  have hdv : (data_valid 100).length = 100 := by decide
  have hst : (state 100).length = 105 := by decide
  have hbu : (busy 100).length = 105 := by decide
  have hvo : (data_valid_out 100).length = 105 := by decide
  have hm1 : (magnitude_out 100).length = 105 := by decide
  have hm2 : (magnitude_out_off_target 100).length = 105 := by decide
  have hm3 : (magnitude_out_dc 100).length = 105 := by decide
  have hdc : (dc_signal 100).length = 100 := by decide
  refine ⟨?_, ?_, ?_, ?_⟩ <;>
    simp only [target_diagram_values, off_target_diagram_values,
      dc_diagram_values, overview_diagram_values, sine_wave, List.map_cons,
      List.map_nil, List.length_map, List.length_range, hdv, hst, hbu, hvo,
      hm1, hm2, hm3, hdc]

/-- C6 counterexample: an invocation with four user-supplied arguments
(`len(sys.argv) = 5`) does not print usage and exit 1 — it is dispatched to
single-file mode, because the code accepts every `len(sys.argv) >= 3`. -/
theorem c6_dispatch_counterexample :
    cli_dispatch 5 = CliMode.singleFile ∧ cli_dispatch 5 ≠ CliMode.usage := by
  decide

/-- C6 amended: the usage-and-exit-1 branch is taken exactly when the user
supplies one argument; zero arguments select batch mode and every count of
two or more selects single-file mode (arguments past the third ignored). -/
theorem c6_dispatch :
    ∀ nargs : ℕ,
      (cli_dispatch (nargs + 1) = CliMode.usage ↔ nargs = 1) ∧
      (nargs = 0 → cli_dispatch (nargs + 1) = CliMode.batch) ∧
      (2 ≤ nargs → cli_dispatch (nargs + 1) = CliMode.singleFile) := by
  intro nargs
  match nargs with
  | 0 => decide
  | 1 => decide
  | (k + 2) =>
    have h1 : ¬ (k + 2 + 1 = 1) := by omega
    have h2 : 3 ≤ k + 2 + 1 := by omega
    refine ⟨?_, ?_, ?_⟩
    · unfold cli_dispatch
      rw [if_neg h1, if_pos h2]
      simp
    · intro h
      omega
    · intro _
      unfold cli_dispatch
      rw [if_neg h1, if_pos h2]

/-- C7 evidence: when the numeric/plotting packages are unavailable the
process does exit with status 1 before any work, but the remediation hint of
lines 188-189 is never printed — the module-level imports of lines 7-9 raise
before the try/except of lines 182-190 is reached, so only an uncaught
ImportError traceback is shown. -/
theorem c7_startup_no_hint :
    waveforms_startup false =
      ⟨1, false, false⟩ ∧ (waveforms_startup false).hint_printed = false := by
  exact ⟨rfl, rfl⟩

/-- C8: single-file mode with a nonexistent input path exits with status 1,
prints an error naming the offending path, and writes neither the vector nor
the raster output. -/
theorem c8_missing_input (path : String) (png_requested raster_ok : Bool) :
    (run_single_file path false png_requested raster_ok).exit_code = some 1 ∧
    (run_single_file path false png_requested raster_ok).error_msg =
      some ("ERROR: Input file not found: " ++ path) ∧
    (run_single_file path false png_requested raster_ok).svg_written = false ∧
    (run_single_file path false png_requested raster_ok).png_written = false :=
  ⟨rfl, rfl, rfl, rfl⟩

/-- C9: when rasterization of the vector image fails, the warning is printed,
the already-written SVG is kept, no exception escapes, and the batch loop
still produces one result per discovered file (processing continues). -/
theorem c9_raster_failure_recoverable :
    (generate_diagram true false).svg_written = true ∧
    (generate_diagram true false).warning_printed = true ∧
    (generate_diagram true false).png_written = false ∧
    (generate_diagram true false).error_raised = false ∧
    ∀ files : List Bool, (generate_all_diagrams files).length = files.length := by
  refine ⟨rfl, rfl, rfl, rfl, ?_⟩
  intro files
  simp [generate_all_diagrams]

/-- C10: the analog input of the sinusoid scenarios is
`1000 * sin(2π k n / N)` at sample n (amplitude constant 1000), and the DC
scenario's sequence holds 500 at every one of its 100 indices. -/
theorem c10_analog_constants :
    (∀ freq_bin N : ℕ, ∀ n : Fin N,
      (sine_wave freq_bin N).getD n 0 =
        1000 * Real.sin (2 * Real.pi * (freq_bin : ℝ) * ((n : ℕ) : ℝ) / (N : ℝ))) ∧
    (dc_signal 100).length = 100 ∧
    (∀ i : Fin 100, (dc_signal 100).getD i (-1) = 500) := by
  refine ⟨?_, by decide, by decide⟩
  intro freq_bin N n
  have hn : (n : ℕ) < N := n.isLt
  rw [sine_wave, List.getD_eq_getElem?_getD, List.getElem?_map,
    List.getElem?_range hn]
  rfl

/-- Witness: the target-scenario magnitude at cycle 102 is 229712. -/
theorem c1_target_magnitude_witness :
    (magnitude_out 100).getD ((102 : Fin 105) : ℕ) (-1) =
      if ((102 : Fin 105) : ℕ) < 102 then 0 else 229712 :=
  c1_target_magnitude.2 102

/-- Witness: the busy signal at cycle 2 is 1. -/
theorem c3_control_signals_witness :
    (busy 100).getD ((2 : Fin 105) : ℕ) (-1) =
      if 2 ≤ ((2 : Fin 105) : ℕ) ∧ ((2 : Fin 105) : ℕ) < 103 then 1 else 0 :=
  c3_control_signals.2.2.2.1 2

/-- Witness: the input-valid signal at index 3 is 1. -/
theorem c4_data_valid_alternates_witness :
    (data_valid 100).getD ((3 : Fin 100) : ℕ) (-1) =
      if ((3 : Fin 100) : ℕ) % 2 = 0 then 0 else 1 :=
  c4_data_valid_alternates.2 3

/-- Witness: the off-target magnitude at cycle 104 is 0. -/
theorem c5_zero_magnitudes_witness :
    (magnitude_out_off_target 100).getD ((104 : Fin 105) : ℕ) (-1) = 0 :=
  c5_zero_magnitudes.2.2.1 104

/-- Witness: two user-supplied arguments select single-file mode. -/
theorem c6_dispatch_witness :
    cli_dispatch (2 + 1) = CliMode.singleFile :=
  (c6_dispatch 2).2.2 (by decide)

/-- Witness: single-file mode on the missing path "missing.json" exits 1. -/
theorem c8_missing_input_witness :
    (run_single_file "missing.json" false true true).exit_code = some 1 :=
  (c8_missing_input "missing.json" true true).1

/-- Witness: a two-file batch yields two results. -/
theorem c9_raster_failure_recoverable_witness :
    (generate_all_diagrams [false, true]).length = [false, true].length :=
  c9_raster_failure_recoverable.2.2.2.2 [false, true]

/-- Witness: the target sinusoid at sample 0 matches the formula. -/
theorem c10_analog_constants_witness :
    (sine_wave 10 100).getD ((0 : Fin 100) : ℕ) 0 =
      1000 * Real.sin (2 * Real.pi * ((10 : ℕ) : ℝ) *
        (((0 : Fin 100) : ℕ) : ℝ) / ((100 : ℕ) : ℝ)) :=
  c10_analog_constants.1 10 100 0

end TestGoertzel
